import Mathlib

/-!
Verification of the Gong MCP server (src/gong_mcp/server.py): the request
signing routine, request construction, the two client operations, the two
facade tools and the startup credential check, embedded shallowly in Lean.
-/

namespace GongServer

/-! ## JSON values and Python json.dumps -/

/-- JSON values as the server builds them for request payloads. -/
inductive JValue where
  | str (s : String)
  | jbool (b : Bool)
  | num (n : Int)
  | arr (xs : List JValue)
  | obj (fields : List (String × JValue))

/-- A Python dict payload: an insertion-ordered association list. -/
abbrev Payload := List (String × JValue)

/-- One hex digit, lower case, as json.dumps writes \uXXXX escapes. -/
def hexDigit (n : Nat) : Char :=
  "0123456789abcdef".data.getD n (Char.ofNat 48)

/-- Four hex digits of a code unit below 2^16. -/
def hex4 (n : Nat) : String :=
  String.mk [hexDigit (n / 4096 % 16), hexDigit (n / 256 % 16),
             hexDigit (n / 16 % 16), hexDigit (n % 16)]

/-- How json.dumps (ensure_ascii default) writes one character inside a
string literal: backslash escapes for quote, backslash and the C0 controls,
raw for printable ASCII, \uXXXX (with surrogate pairs) beyond ASCII. -/
def escapeChar (c : Char) : String :=
  let n := c.toNat
  if n = 34 then String.mk [Char.ofNat 92, Char.ofNat 34]
  else if n = 92 then String.mk [Char.ofNat 92, Char.ofNat 92]
  else if n = 8 then "\\b"
  else if n = 9 then "\\t"
  else if n = 10 then "\\n"
  else if n = 12 then "\\f"
  else if n = 13 then "\\r"
  else if n < 32 then "\\u" ++ hex4 n
  else if n < 127 then String.mk [c]
  else if n < 65536 then "\\u" ++ hex4 n
  else "\\u" ++ hex4 (55296 + (n - 65536) / 1024) ++ "\\u" ++ hex4 (56320 + (n - 65536) % 1024)

/-- A JSON string literal: quotes around the escaped characters. -/
def quoteStr (s : String) : String :=
  String.mk [Char.ofNat 34] ++ String.join (s.data.map escapeChar) ++ String.mk [Char.ofNat 34]

mutual
/-- Python json.dumps with explicit separators (isep between items, ksep
after each key), mirroring the json library's separators parameter. -/
def dumpsWith (isep ksep : String) : JValue → String
  | .str s => quoteStr s
  | .jbool b => if b then "true" else "false"
  | .num n => toString n
  | .arr xs => "[" ++ dumpsListWith isep ksep xs ++ "]"
  | .obj fs => "\x7b" ++ dumpsObjWith isep ksep fs ++ "\x7d"

/-- Elements of a JSON array, isep-separated. -/
def dumpsListWith (isep ksep : String) : List JValue → String
  | [] => ""
  | [x] => dumpsWith isep ksep x
  | x :: y :: ys => dumpsWith isep ksep x ++ isep ++ dumpsListWith isep ksep (y :: ys)

/-- Members of a JSON object, isep-separated, key ksep value each. -/
def dumpsObjWith (isep ksep : String) : List (String × JValue) → String
  | [] => ""
  | [(k, v)] => quoteStr k ++ ksep ++ dumpsWith isep ksep v
  | (k, v) :: g :: gs =>
      quoteStr k ++ ksep ++ dumpsWith isep ksep v ++ isep ++ dumpsObjWith isep ksep (g :: gs)
end

/-- json.dumps with its default separators: a comma-space between items and
a colon-space after each key (the Python default when indent is None). -/
def dumps (v : JValue) : String := dumpsWith ", " ": " v

/-- Modelled from the spec: the "canonical compact JSON string" of a value,
i.e. the most compact JSON representation, with no whitespace after the
item and key separators (the json library's separators ("," , ":")). -/
def canonicalCompactDumps (v : JValue) : String := dumpsWith "," ":" v

/-- Two spaces of indentation per level, as json.dumps(..., indent=2) emits. -/
def ind2 (d : Nat) : String := String.join (List.replicate d "  ")

mutual
/-- Python json.dumps with indent=2 at nesting depth d: containers open a
line, every item sits on its own line indented one level deeper, and the
closing bracket returns to the container's own indentation. -/
def dumpsI2 (d : Nat) : JValue → String
  | .str s => quoteStr s
  | .jbool b => if b then "true" else "false"
  | .num n => toString n
  | .arr [] => "[]"
  | .arr (x :: xs) =>
      "[\n" ++ ind2 (d + 1) ++ dumpsListI2 (d + 1) (x :: xs) ++ "\n" ++ ind2 d ++ "]"
  | .obj [] => "\x7b\x7d"
  | .obj (f :: fs) =>
      "\x7b\n" ++ ind2 (d + 1) ++ dumpsObjI2 (d + 1) (f :: fs) ++ "\n" ++ ind2 d ++ "\x7d"

/-- Array elements under indent=2, comma-newline separated. -/
def dumpsListI2 (d : Nat) : List JValue → String
  | [] => ""
  | [x] => dumpsI2 d x
  | x :: y :: ys => dumpsI2 d x ++ ",\n" ++ ind2 d ++ dumpsListI2 d (y :: ys)

/-- Object members under indent=2, comma-newline separated, key colon-space value. -/
def dumpsObjI2 (d : Nat) : List (String × JValue) → String
  | [] => ""
  | [(k, v)] => quoteStr k ++ ": " ++ dumpsI2 d v
  | (k, v) :: g :: gs =>
      quoteStr k ++ ": " ++ dumpsI2 d v ++ ",\n" ++ ind2 d ++ dumpsObjI2 d (g :: gs)
end

/-- json.dumps(value, indent=2): pretty printing starts at depth 0. -/
def dumpsIndent2 (v : JValue) : String := dumpsI2 0 v

/-! ## Byte-level primitives: UTF-8, base64, SHA-256, HMAC

Bytes are Nats below 256; 32-bit words are Nats reduced modulo 2^32. -/

/-- UTF-8 encoding of one unicode scalar value (str.encode in Python). -/
def utf8Char (c : Char) : List Nat :=
  let n := c.toNat
  if n < 128 then [n]
  else if n < 2048 then [192 + n / 64, 128 + n % 64]
  else if n < 65536 then [224 + n / 4096, 128 + n / 64 % 64, 128 + n % 64]
  else [240 + n / 262144, 128 + n / 4096 % 64, 128 + n / 64 % 64, 128 + n % 64]

/-- UTF-8 bytes of a string, as Python's encode with the utf-8 codec. -/
def strBytes (s : String) : List Nat :=
  s.data.foldr (fun c acc => utf8Char c ++ acc) []

/-- The base64 alphabet of RFC 4648, as base64.b64encode uses. -/
def b64Char (n : Nat) : Char :=
  "ABCDEFGHIJKLMNOPQRSTUVWXYZabcdefghijklmnopqrstuvwxyz0123456789+/".data.getD n (Char.ofNat 65)

/-- base64.b64encode: three bytes at a time into four alphabet characters,
with = padding for a final group of one or two bytes. -/
def b64encode : List Nat → String
  | [] => ""
  | [a] => String.mk [b64Char (a / 4), b64Char (a % 4 * 16)] ++ "=="
  | [a, b] =>
      String.mk [b64Char (a / 4), b64Char (a % 4 * 16 + b / 16), b64Char (b % 16 * 4)] ++ "="
  | a :: b :: c :: rest =>
      String.mk [b64Char (a / 4), b64Char (a % 4 * 16 + b / 16),
                 b64Char (b % 16 * 4 + c / 64), b64Char (c % 64)] ++ b64encode rest

/-- 2^32, the modulus of SHA-256 word arithmetic. -/
def M32 : Nat := 4294967296

/-- Right rotation of a 32-bit word by k places. -/
def rotr32 (k x : Nat) : Nat := (x / 2 ^ k + x % 2 ^ k * 2 ^ (32 - k)) % M32

/-- Logical right shift of a 32-bit word by k places. -/
def shr32 (k x : Nat) : Nat := x / 2 ^ k

/-- The SHA-256 round constants (FIPS 180-4), in decimal. -/
def sha256K : List Nat :=
  [1116352408, 1899447441, 3049323471, 3921009573, 961987163, 1508970993,
   2453635748, 2870763221, 3624381080, 310598401, 607225278, 1426881987,
   1925078388, 2162078206, 2614888103, 3248222580, 3835390401, 4022224774,
   264347078, 604807628, 770255983, 1249150122, 1555081692, 1996064986,
   2554220882, 2821834349, 2952996808, 3210313671, 3336571891, 3584528711,
   113926993, 338241895, 666307205, 773529912, 1294757372, 1396182291,
   1695183700, 1986661051, 2177026350, 2456956037, 2730485921, 2820302411,
   3259730800, 3345764771, 3516065817, 3600352804, 4094571909, 275423344,
   430227734, 506948616, 659060556, 883997877, 958139571, 1322822218,
   1537002063, 1747873779, 1955562222, 2024104815, 2227730452, 2361852424,
   2428436474, 2756734187, 3204031479, 3329325298]

/-- The SHA-256 initial hash state (FIPS 180-4), in decimal. -/
def sha256H0 : List Nat :=
  [1779033703, 3144134277, 1013904242, 2773480762,
   1359893119, 2600822924, 528734635, 1541459225]

/-- Big-endian bytes to 32-bit words, four at a time. -/
def bytesToWordsBE : List Nat → List Nat
  | a :: b :: c :: d :: rest => (((a * 256 + b) * 256 + c) * 256 + d) :: bytesToWordsBE rest
  | _ => []

/-- The k big-endian bytes of n. -/
def natToBytesBE (k n : Nat) : List Nat :=
  (List.range k).map fun i => n / 256 ^ (k - 1 - i) % 256

/-- SHA-256 padding: 0x80, zeros to 56 mod 64, then the 64-bit bit length. -/
def sha256Pad (msg : List Nat) : List Nat :=
  msg ++ [128] ++ List.replicate ((119 - msg.length % 64) % 64) 0 ++ natToBytesBE 8 (msg.length * 8)

/-- Split a byte list into 64-byte blocks; the fuel bounds the block count. -/
def chunks64Go : Nat → List Nat → List (List Nat)
  | 0, _ => []
  | _ + 1, [] => []
  | n + 1, l => l.take 64 :: chunks64Go n (l.drop 64)

/-- The 64-byte blocks of a (padded) byte list. -/
def chunks64 (l : List Nat) : List (List Nat) := chunks64Go (l.length / 64 + 1) l

/-- The next word of the SHA-256 message schedule, from the last 16 words. -/
def scheduleStep (w : List Nat) : Nat :=
  let n := w.length
  let w15 := w.getD (n - 15) 0
  let w2 := w.getD (n - 2) 0
  let s0 := Nat.xor (rotr32 7 w15) (Nat.xor (rotr32 18 w15) (shr32 3 w15))
  let s1 := Nat.xor (rotr32 17 w2) (Nat.xor (rotr32 19 w2) (shr32 10 w2))
  (w.getD (n - 16) 0 + s0 + w.getD (n - 7) 0 + s1) % M32

/-- Extend 16 block words to the 64 schedule words. -/
def sha256Schedule (block16 : List Nat) : List Nat :=
  (List.range 48).foldl (fun w _ => w ++ [scheduleStep w]) block16

/-- The SHA-256 choice function. -/
def ch32 (e f g : Nat) : Nat := Nat.xor (Nat.land e f) (Nat.land (Nat.xor e 4294967295) g)

/-- The SHA-256 majority function. -/
def maj32 (a b c : Nat) : Nat :=
  Nat.xor (Nat.land a b) (Nat.xor (Nat.land a c) (Nat.land b c))

/-- The SHA-256 big sigma-0 function. -/
def bigSigma0 (a : Nat) : Nat := Nat.xor (rotr32 2 a) (Nat.xor (rotr32 13 a) (rotr32 22 a))

/-- The SHA-256 big sigma-1 function. -/
def bigSigma1 (e : Nat) : Nat := Nat.xor (rotr32 6 e) (Nat.xor (rotr32 11 e) (rotr32 25 e))

/-- One SHA-256 compression round on the eight-word state. -/
def sha256Round (st : List Nat) (kw : Nat × Nat) : List Nat :=
  match st with
  | [a, b, c, d, e, f, g, h] =>
      let t1 := (h + bigSigma1 e + ch32 e f g + kw.1 + kw.2) % M32
      let t2 := (bigSigma0 a + maj32 a b c) % M32
      [(t1 + t2) % M32, a, b, c, (d + t1) % M32, e, f, g]
  | _ => st

/-- Process one 64-byte block into the running hash state. -/
def sha256Block (h : List Nat) (block : List Nat) : List Nat :=
  let st := (sha256K.zip (sha256Schedule (bytesToWordsBE block))).foldl sha256Round h
  (h.zip st).map fun p => (p.1 + p.2) % M32

/-- SHA-256 of a byte list (hashlib.sha256(...).digest()), as bytes. -/
def sha256 (msg : List Nat) : List Nat :=
  ((chunks64 (sha256Pad msg)).foldl sha256Block sha256H0).foldr
    (fun w acc => natToBytesBE 4 w ++ acc) []

/-- HMAC-SHA256 of a message under a key (RFC 2104; hmac.new(key, msg,
hashlib.sha256).digest()): block size 64, inner pad 0x36, outer pad 0x5c. -/
def hmacSha256 (key msg : List Nat) : List Nat :=
  let key0 := if 64 < key.length then sha256 key else key
  let keyPadded := key0 ++ List.replicate (64 - key0.length) 0
  sha256 (keyPadded.map (fun b => Nat.xor b 92) ++
          sha256 (keyPadded.map (fun b => Nat.xor b 54) ++ msg))

/-! ## The server (src/gong_mcp/server.py) -/

/-- Line 22: the fixed base URL of the remote API. -/
def GONG_API_URL : String := "https://api.gong.io/v2"

/-- Lines 48-55: the client owns the two credentials. -/
structure GongClient where
  access_key : String
  access_secret : String

/-- Line 60: params_str = json.dumps(params) if params else "". A Python
dict is falsy when empty, and an absent argument is None, also falsy, so
the serialized form is the empty string for None and for the empty dict,
and json.dumps with default separators otherwise. -/
def params_str (params : Option Payload) : String :=
  match params with
  | none => ""
  | some l => if l.isEmpty then "" else dumps (JValue.obj l)

/-- Line 61: the string to sign joins method, path, timestamp and the
serialized payload with newlines, in that order. -/
def string_to_sign (method path timestamp : String) (params : Option Payload) : String :=
  method ++ "\n" ++ path ++ "\n" ++ timestamp ++ "\n" ++ params_str params

/-- Lines 57-71, GongClient._generate_signature: HMAC-SHA256 of the
string to sign, keyed by the utf-8 bytes of the access secret, base64
encoded. -/
def generate_signature (c : GongClient) (method path timestamp : String)
    (params : Option Payload) : String :=
  b64encode (hmacSha256 (strBytes c.access_secret)
    (strBytes (string_to_sign method path timestamp params)))

/-- Python's `data or params` (line 87): data when truthy (a non-empty
dict), else params. -/
def pyOrPayload (data params : Option Payload) : Option Payload :=
  match data with
  | some l => if l.isEmpty then params else some l
  | none => params

/-- The request value _request assembles before handing it to httpx. -/
structure Request where
  method : String
  url : String
  params : Option Payload
  data : Option Payload
  headers : List (String × String)

/-- Lines 73-97, GongClient._request up to the httpx call: `now` stands for
the value of datetime.utcnow().isoformat() at this call, to which the code
appends "Z" to form the timestamp placed in the headers and signed. -/
def request (c : GongClient) (now : String) (method path : String)
    (params : Option Payload) (data : Option Payload) : Request :=
  let timestamp := now ++ "Z"
  let url := GONG_API_URL ++ path
  let auth_string := c.access_key ++ ":" ++ c.access_secret
  let basic_auth := b64encode (strBytes auth_string)
  { method := method
    url := url
    params := params
    data := data
    headers :=
      [("Content-Type", "application/json"),
       ("Authorization", "Basic " ++ basic_auth),
       ("X-Gong-AccessKey", c.access_key),
       ("X-Gong-Timestamp", timestamp),
       ("X-Gong-Signature", generate_signature c method path timestamp (pyOrPayload data params))] }

/-- Lines 101-107: the query dict starts empty and each argument is added
under its camelCase key only when truthy (None and "" are falsy). -/
def list_calls_params (from_date_time to_date_time : Option String) : Payload :=
  let params : Payload := []
  let params :=
    match from_date_time with
    | some s => if s.isEmpty then params else params ++ [("fromDateTime", JValue.str s)]
    | none => params
  match to_date_time with
  | some s => if s.isEmpty then params else params ++ [("toDateTime", JValue.str s)]
  | none => params

/-- Lines 101-109, GongClient.list_calls: GET /calls with the query dict,
no body. -/
def list_calls (c : GongClient) (now : String)
    (from_date_time to_date_time : Option String) : Request :=
  request c now "GET" "/calls" (some (list_calls_params from_date_time to_date_time)) none

/-- Lines 113-120: the transcript request body. -/
def transcripts_data (call_ids : List String) : Payload :=
  [("filter", JValue.obj
      [("callIds", JValue.arr (call_ids.map JValue.str)),
       ("includeEntities", JValue.jbool true),
       ("includeInteractionsSummary", JValue.jbool true),
       ("includeTrackers", JValue.jbool true)])]

/-- Lines 111-121, GongClient.retrieve_transcripts: POST /calls/transcript
with the filter body, no query parameters. -/
def retrieve_transcripts (c : GongClient) (now : String) (call_ids : List String) : Request :=
  request c now "POST" "/calls/transcript" none (some (transcripts_data call_ids))

/-- Lines 135-151, the list_calls tool body: the outcome of the client call
is either the decoded JSON response or a raised exception's message; the
tool pretty-prints the response, or wraps the message in an error object,
and always returns text. -/
def list_calls_tool (outcome : Except String JValue) : String :=
  match outcome with
  | .ok response => dumpsIndent2 response
  | .error e => dumpsIndent2 (JValue.obj [("error", JValue.str e)])

/-- Lines 154-169, the retrieve_transcripts tool body, wrapping its client
call the same way. -/
def retrieve_transcripts_tool (outcome : Except String JValue) : String :=
  match outcome with
  | .ok response => dumpsIndent2 response
  | .error e => dumpsIndent2 (JValue.obj [("error", JValue.str e)])

/-- Line 28: the diagnostic printed when a credential is missing. -/
def requiredEnvMessage : String :=
  "Error: GONG_ACCESS_KEY and GONG_ACCESS_SECRET environment variables are required"

/-- Python truthiness of an optional string: None and "" are falsy. -/
def pyTruthy : Option String → Bool
  | some s => !s.isEmpty
  | none => false

/-- Lines 23-29 and 129, the module-level startup: read both environment
variables; when either is falsy, print the diagnostic and exit with status
1 (the error branch, carrying the exit code and the message, reached
before any client exists); otherwise construct the client. -/
def startup (gong_access_key gong_access_secret : Option String) :
    Except (Nat × String) GongClient :=
  if !pyTruthy gong_access_key || !pyTruthy gong_access_secret then
    .error (1, requiredEnvMessage)
  else
    .ok { access_key := gong_access_key.getD "", access_secret := gong_access_secret.getD "" }

/-! ## Grounding the byte-level primitives against published vectors -/

set_option maxRecDepth 100000 in
/-- FIPS 180-4 reference: sha256("abc"). -/
theorem sha256_abc_vector :
    sha256 (strBytes "abc") =
      [186, 120, 22, 191, 143, 1, 207, 234, 65, 65, 64, 222, 93, 174,
       34, 35, 176, 3, 97, 163, 150, 23, 122, 156, 180, 16, 255, 97,
       242, 0, 21, 173] := by
  decide

set_option maxRecDepth 100000 in
/-- RFC 4231 test case 2: HMAC-SHA256 with key "Jefe". -/
theorem hmac_rfc4231_case2_vector :
    hmacSha256 (strBytes "Jefe") (strBytes "what do ya want for nothing?") =
      [91, 220, 193, 70, 191, 96, 117, 78, 106, 4, 36, 38, 8, 149,
       117, 199, 90, 0, 63, 8, 157, 39, 57, 131, 157, 236, 88, 185,
       100, 236, 56, 67] := by
  decide

set_option maxRecDepth 10000 in
/-- RFC 4648 base64 vectors. -/
theorem b64_rfc4648_vectors :
    b64encode (strBytes "f") = "Zg==" ∧ b64encode (strBytes "fo") = "Zm8=" ∧
      b64encode (strBytes "foo") = "Zm9v" ∧ b64encode (strBytes "foobar") = "Zm9vYmFy" := by
  decide

set_option maxRecDepth 10000 in
/-- The default-separator serializer reproduces Python's json.dumps output
byte for byte on the transcript request body. -/
theorem dumps_reference_vector :
    dumps (JValue.obj (transcripts_data ["id1", "id2"])) =
      "\x7b\"filter\": \x7b\"callIds\": [\"id1\", \"id2\"], \"includeEntities\": true, \"includeInteractionsSummary\": true, \"includeTrackers\": true\x7d\x7d" := by
  decide

set_option maxRecDepth 100000 in
/-- End-to-end reference: the embedded signing pipeline reproduces the exact
signature the Python code computes (via its hmac, hashlib and base64
libraries) for a concrete request. -/
theorem signature_reference_vector :
    generate_signature ⟨"k", "s3cr3t"⟩ "GET" "/calls" "2024-01-02T03:04:05Z"
      (some [("fromDateTime", JValue.str "2024-03-01T00:00:00Z")]) =
      "1Ox363G4DYpLPs3pT59clgtT00JzWpneJ9XHQTqn51U=" := by
  decide

/-! ## The claims -/

/-- C1, corrected: for every non-empty payload mapping, the serialized form
entering the string-to-sign is Python's default json.dumps encoding of that
mapping — items separated by comma-space, keys from values by colon-space,
in insertion order — not the canonical compact encoding; the empty string
is used when there is no payload (C1 as stated fails: see
payload_serialization_not_canonical_compact). -/
theorem payload_serialized_with_default_dumps (p : Payload) (hp : p ≠ []) :
    params_str (some p) = dumps (JValue.obj p) := by
  cases p with
  | nil => exact absurd rfl hp
  | cons a l => rfl

/-- Witness for payload_serialized_with_default_dumps at the spec's own
example parameter. -/
theorem payload_serialized_with_default_dumps_witness :
    params_str (some [("fromDateTime", JValue.str "2024-03-01T00:00:00Z")]) =
      dumps (JValue.obj [("fromDateTime", JValue.str "2024-03-01T00:00:00Z")]) :=
  payload_serialized_with_default_dumps
    [("fromDateTime", JValue.str "2024-03-01T00:00:00Z")] (List.cons_ne_nil _ _)

set_option maxRecDepth 10000 in
/-- C1, counterexample: on the one-key mapping of the spec's own example the
serialized form the code signs differs from the canonical compact JSON
encoding (the code writes a space after the colon). -/
theorem payload_serialization_not_canonical_compact :
    params_str (some [("fromDateTime", JValue.str "2024-03-01T00:00:00Z")]) ≠
      canonicalCompactDumps (JValue.obj [("fromDateTime", JValue.str "2024-03-01T00:00:00Z")]) := by
  decide

/-- C2, confirmed: for every method, path, timestamp and payload, the
signature is the base64 encoding of the raw HMAC-SHA256 digest, keyed by
the access secret, of method, path, timestamp and the serialized payload
joined by newlines in that exact order. -/
theorem signature_is_base64_hmac (c : GongClient) (method path timestamp : String)
    (params : Option Payload) :
    generate_signature c method path timestamp params =
      b64encode (hmacSha256 (strBytes c.access_secret)
        (strBytes (method ++ "\n" ++ path ++ "\n" ++ timestamp ++ "\n" ++ params_str params))) :=
  rfl

/-- C3, confirmed: the signature is a deterministic pure function of method,
path, timestamp and payload, keyed by the access secret: two invocations
agreeing on those five inputs yield equal signatures (the access key plays
no part). -/
theorem signature_deterministic (c1 c2 : GongClient) (m1 m2 p1 p2 t1 t2 : String)
    (pl1 pl2 : Option Payload) (hsecret : c1.access_secret = c2.access_secret)
    (hmethod : m1 = m2) (hpath : p1 = p2) (htime : t1 = t2) (hpayload : pl1 = pl2) :
    generate_signature c1 m1 p1 t1 pl1 = generate_signature c2 m2 p2 t2 pl2 := by
  subst hmethod hpath htime hpayload
  unfold generate_signature
  rw [hsecret]

/-- Witness for signature_deterministic: two clients sharing a secret but
not an access key sign the same request identically. -/
theorem signature_deterministic_witness :
    generate_signature ⟨"key-a", "shared-secret"⟩ "GET" "/calls" "2024-03-01T00:00:00" none =
      generate_signature ⟨"key-b", "shared-secret"⟩ "GET" "/calls" "2024-03-01T00:00:00" none :=
  signature_deterministic ⟨"key-a", "shared-secret"⟩ ⟨"key-b", "shared-secret"⟩ "GET" "GET"
    "/calls" "/calls" "2024-03-01T00:00:00" "2024-03-01T00:00:00" none none rfl rfl rfl rfl rfl

/-- C4, confirmed: every outbound request carries exactly these headers:
HTTP Basic auth over accessKey:accessSecret, the raw access key, the
per-request timestamp (the clock reading with "Z" appended), a signature
over this request's method, path, the same timestamp value, and its
body-or-parameters (data when truthy, else params), and the JSON
content-type. -/
theorem request_headers_exact (c : GongClient) (now method path : String)
    (params data : Option Payload) :
    (request c now method path params data).headers =
      [("Content-Type", "application/json"),
       ("Authorization", "Basic " ++ b64encode (strBytes (c.access_key ++ ":" ++ c.access_secret))),
       ("X-Gong-AccessKey", c.access_key),
       ("X-Gong-Timestamp", now ++ "Z"),
       ("X-Gong-Signature",
        generate_signature c method path (now ++ "Z") (pyOrPayload data params))] :=
  rfl

/-- C5, confirmed: list_calls with no arguments issues GET /calls with an
empty query dict, and the payload string entering the string-to-sign is the
empty string. -/
theorem list_calls_no_args (c : GongClient) (now : String) :
    (list_calls c now none none).method = "GET" ∧
    (list_calls c now none none).url = GONG_API_URL ++ "/calls" ∧
    (list_calls c now none none).params = some [] ∧
    (list_calls c now none none).data = none ∧
    params_str (pyOrPayload (list_calls c now none none).data
      (list_calls c now none none).params) = "" ∧
    (list_calls c now none none).headers.lookup "X-Gong-Signature" =
      some (generate_signature c "GET" "/calls" (now ++ "Z") (some [])) :=
  ⟨rfl, rfl, rfl, rfl, rfl, rfl⟩

/-- C6, corrected: list_calls issues GET /calls whose query parameters hold
the provided arguments under fromDateTime and toDateTime and nothing else,
a parameter being included iff it was provided with a non-empty (truthy)
value, and the signature is computed over exactly those query parameters
(C6 as stated fails at the empty string: see
list_calls_empty_string_omitted). -/
theorem list_calls_params_exact (c : GongClient) (now : String) (fdt tdt : Option String) :
    (list_calls c now fdt tdt).method = "GET" ∧
    (list_calls c now fdt tdt).url = GONG_API_URL ++ "/calls" ∧
    (list_calls c now fdt tdt).params = some (list_calls_params fdt tdt) ∧
    ((list_calls_params fdt tdt).lookup "fromDateTime" =
      match fdt with
      | some s => if s.isEmpty then none else some (JValue.str s)
      | none => none) ∧
    ((list_calls_params fdt tdt).lookup "toDateTime" =
      match tdt with
      | some s => if s.isEmpty then none else some (JValue.str s)
      | none => none) ∧
    (∀ kv ∈ list_calls_params fdt tdt, kv.1 = "fromDateTime" ∨ kv.1 = "toDateTime") ∧
    (list_calls c now fdt tdt).headers.lookup "X-Gong-Signature" =
      some (generate_signature c "GET" "/calls" (now ++ "Z")
        (some (list_calls_params fdt tdt))) := by
  refine ⟨rfl, rfl, rfl, ?_, ?_, ?_, rfl⟩ <;>
    cases fdt with
    | none =>
        cases tdt with
        | none => simp [list_calls_params, List.lookup]
        | some t =>
            by_cases ht : t.isEmpty <;>
              simp [list_calls_params, ht, List.lookup]
    | some s =>
        cases tdt with
        | none =>
            by_cases hs : s.isEmpty <;>
              simp [list_calls_params, hs, List.lookup]
        | some t =>
            by_cases hs : s.isEmpty <;> by_cases ht : t.isEmpty <;>
              simp [list_calls_params, hs, ht, List.lookup]

/-- C6, counterexample: the empty string argument is provided yet its
parameter is omitted from the query dict, so inclusion is not equivalent to
provision. -/
theorem list_calls_empty_string_omitted :
    (some "" ≠ (none : Option String)) ∧
      (list_calls_params (some "") none).lookup "fromDateTime" = none :=
  ⟨by decide, rfl⟩

/-- C7, confirmed: retrieve_transcripts issues POST /calls/transcript with
a body whose filter carries exactly the given callIds and the three boolean
flags set to true, no query parameters, and the signature computed over
this body. -/
theorem retrieve_transcripts_request_shape (c : GongClient) (now : String)
    (call_ids : List String) :
    (retrieve_transcripts c now call_ids).method = "POST" ∧
    (retrieve_transcripts c now call_ids).url = GONG_API_URL ++ "/calls/transcript" ∧
    (retrieve_transcripts c now call_ids).params = none ∧
    (∃ flt, (retrieve_transcripts c now call_ids).data = some [("filter", JValue.obj flt)] ∧
      flt.lookup "callIds" = some (JValue.arr (call_ids.map JValue.str)) ∧
      flt.lookup "includeEntities" = some (JValue.jbool true) ∧
      flt.lookup "includeInteractionsSummary" = some (JValue.jbool true) ∧
      flt.lookup "includeTrackers" = some (JValue.jbool true)) ∧
    (retrieve_transcripts c now call_ids).headers.lookup "X-Gong-Signature" =
      some (generate_signature c "POST" "/calls/transcript" (now ++ "Z")
        (some (transcripts_data call_ids))) :=
  ⟨rfl, rfl, rfl, ⟨_, rfl, rfl, rfl, rfl, rfl⟩, rfl⟩

set_option maxRecDepth 10000 in
/-- C8, confirmed: each facade tool is a total function to text: a raised
client exception becomes the pretty-printed error object carrying the
exception's message, and a successful response is returned as
pretty-printed text; the final conjunct evaluates the error payload on a
concrete failure. -/
theorem tools_return_text_payload :
    (∀ e, list_calls_tool (Except.error e) =
      dumpsIndent2 (JValue.obj [("error", JValue.str e)])) ∧
    (∀ r, list_calls_tool (Except.ok r) = dumpsIndent2 r) ∧
    (∀ e, retrieve_transcripts_tool (Except.error e) =
      dumpsIndent2 (JValue.obj [("error", JValue.str e)])) ∧
    (∀ r, retrieve_transcripts_tool (Except.ok r) = dumpsIndent2 r) ∧
    list_calls_tool (Except.error "Client error 404") =
      "\x7b\n  \"error\": \"Client error 404\"\n\x7d" :=
  ⟨fun _ => rfl, fun _ => rfl, fun _ => rfl, fun _ => rfl, by decide⟩

/-- C9, confirmed: when either credential is absent from the environment,
startup takes the error branch — exit status 1 with the diagnostic — and
constructs no client, so no request can ever be issued. -/
theorem startup_missing_credential_exits (key secret : Option String)
    (h : key = none ∨ secret = none) :
    startup key secret = Except.error (1, requiredEnvMessage) := by
  rcases h with h | h
  · subst h; rfl
  · subst h; simp [startup, pyTruthy]

/-- Witness for startup_missing_credential_exits: the key absent, the
secret present. -/
theorem startup_missing_credential_exits_witness :
    startup none (some "secret") = Except.error (1, requiredEnvMessage) :=
  startup_missing_credential_exits none (some "secret") (Or.inl rfl)

/-- C10, confirmed: a falsy datetime argument is treated exactly like an
absent one — list_calls with an empty-string argument builds the very same
request as list_calls without it — and the empty parameter mapping signs
identically to no payload at all. -/
theorem falsy_args_equal_absent (c : GongClient) (now : String) (fdt tdt : Option String)
    (method path timestamp : String) :
    list_calls c now (some "") tdt = list_calls c now none tdt ∧
    list_calls c now fdt (some "") = list_calls c now fdt none ∧
    generate_signature c method path timestamp (some []) =
      generate_signature c method path timestamp none :=
  ⟨rfl, rfl, rfl⟩

end GongServer

